import Mathlib

/-!
Shallow embedding of the overpass-client query execution pipeline
(`OverpassClient` in `src/client.ts` of andreasnicolaou/overpass-client,
together with `OverpassError` in `src/errors.ts`).

The embedding follows the source:
* the LRU cache is modelled as a list of entries with insertion times and a
  TTL (no capacity bound is needed: none of the verified runs comes close to
  the capacity of 500, and no claim concerns eviction order);
* the RxJS pipeline `defer(post).pipe(tap(set), retry({count, delay}))` is
  modelled as a loop over transport outcomes.  The RxJS `retry` operator
  calls the `delay` callback with a retry count that starts at 1, and
  `retry` with `count <= 0` behaves as the identity operator (the raw error
  propagates); the loop below reproduces exactly that: `remaining` is
  `count - soFar`, so a failure with `remaining = 0` surfaces the raw error
  and otherwise the classifier is consulted with `attempt = invocation`;
* JavaScript numbers that can be `NaN` (the parsed `retry-after` header)
  are modelled as `Option` rationals, `none` standing for `NaN`;
* `Math.random()` is modelled as a stream `rand : Nat -> Rat` of samples
  indexed by the attempt on which the sample is drawn.
-/

set_option autoImplicit false

/-- Payload delivered by the Overpass API.  The pipeline treats it as opaque,
so a single numeric field suffices for the embedding. -/
structure OverpassResponse where
  payload : Nat
deriving DecidableEq, Repr

/-- One entry of the LRU cache: key, value and the time it was written. -/
structure CacheEntry where
  key : String
  value : OverpassResponse
  insertedAt : Nat
deriving DecidableEq, Repr

/-- The cache of the client: entries (most recent first) plus the TTL in
milliseconds (default `5 * 60 * 1000` in the source). -/
structure Cache where
  entries : List CacheEntry
  ttl : Nat
deriving DecidableEq, Repr

/-- `lru-cache` `get`: an entry older than the TTL is treated as absent
(`isStale` there is `now - start > ttl`). -/
def Cache.get (c : Cache) (now : Nat) (k : String) : Option OverpassResponse :=
  match c.entries.find? (fun e => e.key == k) with
  | some e => if now - e.insertedAt ≤ c.ttl then some e.value else none
  | none => none

/-- `lru-cache` `set`: insert or overwrite, resetting the insertion time. -/
def Cache.set (c : Cache) (now : Nat) (k : String) (v : OverpassResponse) : Cache :=
  { c with entries := ⟨k, v, now⟩ :: c.entries.filter (fun e => e.key != k) }

/-- `lru-cache` `delete`: remove the entry under `k` if present. -/
def Cache.delete (c : Cache) (k : String) : Cache :=
  { c with entries := c.entries.filter (fun e => e.key != k) }

/-- Whether the store physically holds an entry under `k`, ignoring expiry. -/
def Cache.peek (c : Cache) (k : String) : Option OverpassResponse :=
  (c.entries.find? (fun e => e.key == k)).map CacheEntry.value

/-- The `OverpassError` class of `src/errors.ts`: message plus the optional
details list and optional query passed to the constructor. -/
structure OverpassError where
  message : String
  errors : Option (List String)
  query : Option String
deriving DecidableEq, Repr

/-- The full message built by the `OverpassError` constructor:
`Overpass Error: ${queryMessage}${message}${detailedError}` where
`detailedError` is present only when `errors` is a nonempty list and
`queryMessage` only when `query` is a truthy (nonempty) string. -/
def OverpassError.fullMessage (e : OverpassError) : String :=
  let detailedError :=
    match e.errors with
    | some l => if l.length ≠ 0 then "\nDetails: " ++ String.intercalate "; " l else ""
    | none => ""
  let queryMessage :=
    match e.query with
    | some q => if q = "" then "" else q ++ " "
    | none => ""
  "Overpass Error: " ++ queryMessage ++ e.message ++ detailedError

/-- An HTTP response attached to a failed axios request. `retryAfter` is the
`retry-after` header (`none` when the header, or the header bag, is absent). -/
structure HttpResponse where
  status : Nat
  statusText : Option String
  retryAfter : Option String
  body : String
deriving DecidableEq, Repr

/-- A failed transport attempt: an axios error carrying an optional HTTP
response, or a non-axios error. -/
inductive TransportFailure where
  | axiosError (response : Option HttpResponse)
  | otherError
deriving DecidableEq, Repr

/-- Outcome of one transport invocation. -/
inductive TransportOutcome where
  | success (v : OverpassResponse)
  | failure (f : TransportFailure)
deriving DecidableEq, Repr

/-- A JavaScript number that may be `NaN` (`none`). -/
abbrev JSNum := Option ℚ

/-- What the `delay` callback handed to the RxJS `retry` operator returns:
either `throwError(() => e)` or an observable that emits after a delay
(`timer(ms)`). -/
inductive RetryDecision where
  | throwErr (e : OverpassError)
  | waitMs (ms : JSNum)
deriving DecidableEq, Repr

/-- JavaScript `parseInt(s, 10)`: skip leading whitespace, optional sign,
then the maximal run of decimal digits; `NaN` (here `none`) when that run is
empty.  Trailing garbage is ignored. -/
def parseIntJS (s : String) : Option Int :=
  let t := s.data.dropWhile Char.isWhitespace
  match t with
  | '-' :: rest =>
    let ds := rest.takeWhile Char.isDigit
    if ds = [] then none
    else some (-(ds.foldl (fun acc c => acc * 10 + (c.toNat - 48)) 0 : Nat))
  | '+' :: rest =>
    let ds := rest.takeWhile Char.isDigit
    if ds = [] then none
    else some (ds.foldl (fun acc c => acc * 10 + (c.toNat - 48)) 0 : Nat)
  | rest =>
    let ds := rest.takeWhile Char.isDigit
    if ds = [] then none
    else some (ds.foldl (fun acc c => acc * 10 + (c.toNat - 48)) 0 : Nat)

/-- The literal part of the 400-body regex before the capture group:
`</strong>: ` . -/
def strongMarker : List Char := ['<', '/', 's', 't', 'r', 'o', 'n', 'g', '>', ':', ' ']

/-- The closing-tag literal after the capture group: `</p>` . -/
def closingPara : List Char := ['<', '/', 'p', '>']

/-- The HTML entity for a double quote: `&quot;` . -/
def quotEntity : List Char := ['&', 'q', 'u', 'o', 't', ';']

/-- Try to match the regex `<\/strong>: ([^<]+) <\/p>` at the head of `cs`.
The capture `[^<]+` is greedy over non-`<` characters; since the literal that
follows starts with a space and then `<`, a match exists exactly when the
maximal non-`<` run after the marker has length at least 2, ends in a space,
and is followed by `</p>`; the capture is that run minus its final space.
Returns the capture and the remainder of the text after the match. -/
def tryMatchErrorDetail (cs : List Char) : Option (List Char × List Char) :=
  if strongMarker.isPrefixOf cs then
    let rest := cs.drop strongMarker.length
    let run := rest.takeWhile (fun c => c ≠ '<')
    let after := rest.drop run.length
    if 2 ≤ run.length ∧ run.getLast? = some ' ' ∧ closingPara.isPrefixOf after then
      some (run.dropLast, after.drop closingPara.length)
    else none
  else none

/-- The `matchAll` helper of the source specialised to the 400-body regex:
repeated `exec` with the `g` flag, i.e. scan left to right, and after a match
continue right after it. `fuel` bounds the recursion; it is always called
with the length of the text, which suffices since every step consumes at
least one character. -/
def matchAllErrorDetails : Nat → List Char → List String
  | 0, _ => []
  | _ + 1, [] => []
  | fuel + 1, c :: cs =>
    match tryMatchErrorDetail (c :: cs) with
    | some (cap, rest) => String.mk cap :: matchAllErrorDetails fuel rest
    | none => matchAllErrorDetails fuel cs

/-- JavaScript `replace(/&quot;/g, String.fromCharCode 34)` on the character
list: replace each occurrence of the entity, left to right. -/
def replaceQuotAux : Nat → List Char → List Char
  | 0, l => l
  | _ + 1, [] => []
  | fuel + 1, c :: cs =>
    if quotEntity.isPrefixOf (c :: cs) then
      '"' :: replaceQuotAux fuel ((c :: cs).drop quotEntity.length)
    else c :: replaceQuotAux fuel cs

/-- Decode `&quot;` entities in a captured detail string. -/
def replaceQuot (s : String) : String :=
  String.mk (replaceQuotAux s.data.length s.data)

/-- The detail extraction performed in the 400 branch of the classifier:
`matchAll(/<\/strong>: ([^<]+) <\/p>/g, body).map(err => err.replace(/&quot;/g, ...))`. -/
def extract400Details (body : String) : List String :=
  (matchAllErrorDetails body.data.length body.data).map replaceQuot

/-- `OverpassClient.retryAfter(attempt, retryAfterMs)`: when `retryAfterMs`
is not `null` (outer `some`) it is used directly, even when it is `NaN`;
otherwise the full-jitter backoff `Math.random() * (2 ^ attempt * 1000)`. -/
def OverpassClient.retryAfter (rand : Nat → ℚ) (attempt : Nat)
    (retryAfterMs : Option JSNum) : JSNum :=
  match retryAfterMs with
  | some ms => ms
  | none => some (rand attempt * (2 ^ attempt * 1000))

/-- The decision part of the `delay` callback of the `retry` operator inside
`OverpassClient.query`, for an axios error: first the exhaustion check
against the 1-based retry count `attempt`, then the dispatch on the HTTP
status of the optional response. -/
def OverpassClient.retryDecision (maxRetries : Nat) (rand : Nat → ℚ) (q : String)
    (response : Option HttpResponse) (attempt : Nat) : RetryDecision :=
  if maxRetries ≤ attempt then
    .throwErr ⟨"Max retries exceeded. Request failed " ++
      ((response.bind HttpResponse.statusText).getD ""), none, some q⟩
  else
    match response with
    | some resp =>
      if resp.status = 400 then
        .throwErr ⟨"Bad Request Error", some (extract400Details resp.body), some q⟩
      else if resp.status = 429 then
        let retryAfterMs : Option JSNum :=
          match resp.retryAfter with
          | some h =>
            if h = "" then none
            else some (Option.map (fun n : Int => (n : ℚ) * 1000) (parseIntJS h))
          | none => none
        .waitMs (OverpassClient.retryAfter rand attempt retryAfterMs)
      else if resp.status = 500 ∨ resp.status = 502 ∨ resp.status = 503 ∨ resp.status = 504 then
        .waitMs (OverpassClient.retryAfter rand attempt none)
      else
        let statusPrefix := if resp.status ≠ 0 then "[" ++ toString resp.status ++ "] - " else ""
        .throwErr ⟨statusPrefix ++ resp.statusText.getD "Unknown error occured", none, none⟩
    | none => .throwErr ⟨"Something went wrong", none, some q⟩

/-- The full `delay` callback: on an axios error the cache entry under the
key is deleted first (`this.lruCache.delete(cachedKey)` precedes every other
step of that branch), then the decision above is taken; a non-axios error
leaves the cache untouched and propagates immediately. -/
def OverpassClient.retryDelayFn (maxRetries : Nat) (rand : Nat → ℚ) (q : String)
    (cache : Cache) (cachedKey : String) (error : TransportFailure)
    (attempt : Nat) : Cache × RetryDecision :=
  match error with
  | .axiosError response =>
    (cache.delete cachedKey, OverpassClient.retryDecision maxRetries rand q response attempt)
  | .otherError => (cache, .throwErr ⟨"Unknown error occurred", none, some q⟩)

/-- Observable happenings of one pipeline run, in order. -/
inductive Event where
  | invoke (n : Nat)
  | cacheSet (key : String) (value : OverpassResponse)
  | waitEv (ms : JSNum)
  | deliver (v : OverpassResponse)
deriving DecidableEq, Repr

/-- What the caller of the pipeline finally observes. -/
inductive QueryResult where
  | success (v : OverpassResponse)
  | overpassFailure (e : OverpassError)
  | rawFailure (f : TransportFailure)
deriving DecidableEq, Repr

/-- A completed run: final result, final cache, the ordered event trace, and
the full query text that was sent (absent on the cache-hit path, which sends
nothing). -/
structure QueryRun where
  result : QueryResult
  cache : Cache
  events : List Event
  sentQuery : Option String
deriving DecidableEq, Repr

/-- Whether an event is a transport invocation. -/
def Event.isInvoke : Event → Bool
  | .invoke _ => true
  | _ => false

/-- Number of transport invocations of a run. -/
def QueryRun.invocations (r : QueryRun) : Nat :=
  (r.events.filter Event.isInvoke).length

/-- The wait event payload, if any. -/
def Event.waitOf : Event → Option JSNum
  | .waitEv ms => some ms
  | _ => none

/-- The scheduled waits of a run, in order. -/
def QueryRun.waits (r : QueryRun) : List JSNum :=
  r.events.filterMap Event.waitOf

/-- The retry loop of `OverpassClient.query`, mirroring the RxJS `retry`
operator with `count = maxRetries`.  `remaining = count - soFar` is the
number of failures that may still be handed to the `delay` callback and
`invocation` is the 1-based index of the attempt about to be made (equal to
the retry count the callback receives).  A failure with `remaining = 0`
surfaces the raw error, exactly as `retry` does once `soFar` reaches
`count` (and as `retry(0) = identity` does for `maxRetries = 0`). -/
def OverpassClient.queryLoop (maxRetries : Nat) (transport : Nat → TransportOutcome)
    (rand : Nat → ℚ) (q : String) (cachedKey : String) (now : Nat) :
    (remaining : Nat) → (invocation : Nat) → Cache → List Event → QueryRun
  | 0, invocation, cache, evs =>
    match transport invocation with
    | .success v =>
      { result := .success v, cache := cache.set now cachedKey v,
        events := evs ++ [Event.invoke invocation, Event.cacheSet cachedKey v, Event.deliver v],
        sentQuery := none }
    | .failure err =>
      { result := .rawFailure err, cache := cache,
        events := evs ++ [Event.invoke invocation], sentQuery := none }
  | remaining + 1, invocation, cache, evs =>
    match transport invocation with
    | .success v =>
      { result := .success v, cache := cache.set now cachedKey v,
        events := evs ++ [Event.invoke invocation, Event.cacheSet cachedKey v, Event.deliver v],
        sentQuery := none }
    | .failure err =>
      match OverpassClient.retryDelayFn maxRetries rand q cache cachedKey err invocation with
      | (cache2, .throwErr e) =>
        { result := .overpassFailure e, cache := cache2,
          events := evs ++ [Event.invoke invocation], sentQuery := none }
      | (cache2, .waitMs ms) =>
        OverpassClient.queryLoop maxRetries transport rand q cachedKey now
          remaining (invocation + 1) cache2 (evs ++ [Event.invoke invocation, Event.waitEv ms])

/-- The full query text `[out:${format}]${timeoutEnabled};${query}` built at
the top of `OverpassClient.query`; a timeout of `0` omits the clause. -/
def fullQueryText (format : String) (timeoutSec : Nat) (q : String) : String :=
  let timeoutEnabled := if timeoutSec ≠ 0 then "[timeout:" ++ toString timeoutSec ++ "]" else ""
  "[out:" ++ format ++ "]" ++ timeoutEnabled ++ ";" ++ q

/-- `OverpassClient.query`: build the full query text, then run the deferred
POST under `tap(set)` and `retry({count: maxRetries, delay: ...})`. -/
def OverpassClient.query (format : String) (timeoutSec : Nat) (maxRetries : Nat)
    (transport : Nat → TransportOutcome) (rand : Nat → ℚ)
    (q : String) (cachedKey : String) (cache : Cache) (now : Nat) : QueryRun :=
  let run := OverpassClient.queryLoop maxRetries transport rand q cachedKey now
    maxRetries 1 cache []
  { run with sentQuery := some (fullQueryText format timeoutSec q) }

/-- The element kinds of `getElement`. -/
inductive ElementType where
  | node
  | way
  | relation
deriving DecidableEq, Repr

/-- The string the template literals interpolate for an element type. -/
def ElementType.toStr : ElementType → String
  | .node => "node"
  | .way => "way"
  | .relation => "relation"

/-- `OverpassClient.getElement`: cache key `${type}-${id}`; on a hit the
cached value is emitted (after a 200 ms cosmetic delay, irrelevant here)
without any network call, on a miss `query` runs with body
`${type}(${id}); ${outputFormat}`. -/
def OverpassClient.getElement (format : String) (timeoutSec : Nat) (maxRetries : Nat)
    (transport : Nat → TransportOutcome) (rand : Nat → ℚ)
    (etype : ElementType) (id : Nat) (outputFormat : String)
    (cache : Cache) (now : Nat) : QueryRun :=
  let key := etype.toStr ++ "-" ++ toString id
  match cache.get now key with
  | some cached =>
    { result := .success cached, cache := cache, events := [Event.deliver cached],
      sentQuery := none }
  | none =>
    OverpassClient.query format timeoutSec maxRetries transport rand
      (etype.toStr ++ "(" ++ toString id ++ "); " ++ outputFormat) key cache now

/-! ### Helper lemmas -/

theorem find?_filter_key_ne (l : List CacheEntry) (k : String) :
    (l.filter (fun e => e.key != k)).find? (fun e => e.key == k) = none := by
  induction l with
  | nil => simp
  | cons e l ih =>
    by_cases h : e.key == k
    · simp [List.filter, bne, h, ih]
    · simp [List.filter, bne, h, List.find?, ih]

theorem Cache.peek_delete (c : Cache) (k : String) : (c.delete k).peek k = none := by
  simp [Cache.peek, Cache.delete, find?_filter_key_ne]

theorem Cache.get_set_self (c : Cache) (now1 now2 : Nat) (k : String) (v : OverpassResponse)
    (h : now2 - now1 ≤ c.ttl) : (c.set now1 k v).get now2 k = some v := by
  simp [Cache.set, Cache.get, List.find?, h]

theorem OverpassClient.queryLoop_success (maxRetries : Nat)
    (transport : Nat → TransportOutcome) (rand : Nat → ℚ) (q cachedKey : String) (now : Nat)
    (remaining : Nat) :
    ∀ (invocation : Nat) (cache : Cache) (evs : List Event) (v : OverpassResponse),
      (OverpassClient.queryLoop maxRetries transport rand q cachedKey now
        remaining invocation cache evs).result = .success v →
      ∃ (pre : List Event) (c2 : Cache),
        (OverpassClient.queryLoop maxRetries transport rand q cachedKey now
          remaining invocation cache evs).events
            = pre ++ [Event.cacheSet cachedKey v, Event.deliver v] ∧
        (OverpassClient.queryLoop maxRetries transport rand q cachedKey now
          remaining invocation cache evs).cache = c2.set now cachedKey v ∧
        c2.ttl = cache.ttl := by
  induction remaining with
  | zero =>
    intro invocation cache evs v h
    rcases htr : transport invocation with v' | err <;>
      simp only [OverpassClient.queryLoop, htr] at h ⊢
    · have hv : v' = v := by simpa using h
      subst hv
      exact ⟨evs ++ [Event.invoke invocation], cache, by simp, rfl, rfl⟩
    · simp at h
  | succ remaining ih =>
    intro invocation cache evs v h
    rcases htr : transport invocation with v' | err <;>
      simp only [OverpassClient.queryLoop, htr] at h ⊢
    · have hv : v' = v := by simpa using h
      subst hv
      exact ⟨evs ++ [Event.invoke invocation], cache, by simp, rfl, rfl⟩
    · rcases err with resp | _ <;>
        simp only [OverpassClient.retryDelayFn] at h ⊢
      · rcases hdec : OverpassClient.retryDecision maxRetries rand q resp invocation
          with e | ms <;> simp only [hdec] at h ⊢
        · simp at h
        · rcases ih (invocation + 1) (cache.delete cachedKey)
            (evs ++ [Event.invoke invocation, Event.waitEv ms]) v h with ⟨pre, c3, h1, h2, h3⟩
          exact ⟨pre, c3, h1, h2, h3⟩
      · simp at h

theorem OverpassClient.queryLoop_zero_eq (maxRetries : Nat) (transport : Nat → TransportOutcome)
    (rand : Nat → ℚ) (q cachedKey : String) (now invocation : Nat) (cache : Cache)
    (evs : List Event) :
    OverpassClient.queryLoop maxRetries transport rand q cachedKey now 0 invocation cache evs =
      match transport invocation with
      | .success v =>
        { result := .success v, cache := cache.set now cachedKey v,
          events := evs ++ [Event.invoke invocation, Event.cacheSet cachedKey v, Event.deliver v],
          sentQuery := none }
      | .failure err =>
        { result := .rawFailure err, cache := cache,
          events := evs ++ [Event.invoke invocation], sentQuery := none } := rfl

theorem OverpassClient.queryLoop_succ_eq (maxRetries : Nat) (transport : Nat → TransportOutcome)
    (rand : Nat → ℚ) (q cachedKey : String) (now remaining invocation : Nat) (cache : Cache)
    (evs : List Event) :
    OverpassClient.queryLoop maxRetries transport rand q cachedKey now (remaining + 1)
        invocation cache evs =
      match transport invocation with
      | .success v =>
        { result := .success v, cache := cache.set now cachedKey v,
          events := evs ++ [Event.invoke invocation, Event.cacheSet cachedKey v, Event.deliver v],
          sentQuery := none }
      | .failure err =>
        match OverpassClient.retryDelayFn maxRetries rand q cache cachedKey err invocation with
        | (cache2, .throwErr e) =>
          { result := .overpassFailure e, cache := cache2,
            events := evs ++ [Event.invoke invocation], sentQuery := none }
        | (cache2, .waitMs ms) =>
          OverpassClient.queryLoop maxRetries transport rand q cachedKey now
            remaining (invocation + 1) cache2
            (evs ++ [Event.invoke invocation, Event.waitEv ms]) := rfl

def retryableStatuses : List Nat := [429, 500, 502, 503, 504]

theorem OverpassClient.retryDecision_exhausted (maxRetries : Nat) (rand : Nat → ℚ)
    (q : String) (resp : Option HttpResponse) (attempt : Nat) (h : maxRetries ≤ attempt) :
    OverpassClient.retryDecision maxRetries rand q resp attempt =
      .throwErr ⟨"Max retries exceeded. Request failed " ++
        ((resp.bind HttpResponse.statusText).getD ""), none, some q⟩ := by
  simp [OverpassClient.retryDecision, h]

theorem OverpassClient.retryDecision_retryable (maxRetries : Nat) (rand : Nat → ℚ)
    (q : String) (resp : HttpResponse) (attempt : Nat)
    (hlt : attempt < maxRetries) (hst : resp.status ∈ retryableStatuses) :
    ∃ ms, OverpassClient.retryDecision maxRetries rand q (some resp) attempt = .waitMs ms := by
  have hnle : ¬ maxRetries ≤ attempt := by omega
  simp only [retryableStatuses, List.mem_cons, List.not_mem_nil, or_false] at hst
  rcases hst with h | h | h | h | h <;>
    simp [OverpassClient.retryDecision, hnle, h]

theorem OverpassClient.queryLoop_all_retryable (R : Nat) (resp : Nat → HttpResponse)
    (hst : ∀ n, (resp n).status ∈ retryableStatuses) (rand : Nat → ℚ)
    (q cachedKey : String) (now : Nat) (remaining : Nat) :
    ∀ (invocation : Nat) (cache : Cache) (evs : List Event),
      1 ≤ remaining → invocation + remaining = R + 1 →
      (OverpassClient.queryLoop R (fun n => .failure (.axiosError (some (resp n)))) rand q
          cachedKey now remaining invocation cache evs).result
        = .overpassFailure ⟨"Max retries exceeded. Request failed " ++
            ((resp R).statusText.getD ""), none, some q⟩ ∧
      (OverpassClient.queryLoop R (fun n => .failure (.axiosError (some (resp n)))) rand q
          cachedKey now remaining invocation cache evs).cache.peek cachedKey = none ∧
      ((OverpassClient.queryLoop R (fun n => .failure (.axiosError (some (resp n)))) rand q
          cachedKey now remaining invocation cache evs).events.filter Event.isInvoke).length
        = (evs.filter Event.isInvoke).length + remaining := by
  induction remaining with
  | zero => intro _ _ _ h; omega
  | succ r ih =>
    intro invocation cache evs _ hinv
    rcases r with _ | r'
    · obtain rfl : invocation = R := by omega
      rw [OverpassClient.queryLoop_succ_eq]
      simp only [OverpassClient.retryDelayFn,
        OverpassClient.retryDecision_exhausted invocation rand q (some (resp invocation))
          invocation (le_refl invocation)]
      exact ⟨rfl, Cache.peek_delete _ _, by simp [Event.isInvoke, List.filter_append]⟩
    · have hlt : invocation < R := by omega
      rcases OverpassClient.retryDecision_retryable R rand q (resp invocation) invocation hlt
        (hst invocation) with ⟨ms, hms⟩
      rw [OverpassClient.queryLoop_succ_eq]
      simp only [OverpassClient.retryDelayFn, hms]
      rcases ih (invocation + 1) (cache.delete cachedKey)
          (evs ++ [Event.invoke invocation, Event.waitEv ms]) (by omega) (by omega)
        with ⟨h1, h2, h3⟩
      refine ⟨h1, h2, ?_⟩
      rw [h3]
      simp [Event.isInvoke, List.filter_append]
      omega

theorem OverpassClient.retryDecision_503 (maxRetries : Nat) (rand : Nat → ℚ) (q : String)
    (resp : HttpResponse) (attempt : Nat) (hlt : attempt < maxRetries)
    (h503 : resp.status = 503) :
    OverpassClient.retryDecision maxRetries rand q (some resp) attempt
      = .waitMs (some (rand attempt * (2 ^ attempt * 1000))) := by
  have hnle : ¬ maxRetries ≤ attempt := by omega
  simp [OverpassClient.retryDecision, hnle, h503, OverpassClient.retryAfter]

theorem OverpassClient.queryLoop_waits_all503 (R : Nat) (resp : Nat → HttpResponse)
    (hst : ∀ n, (resp n).status = 503) (rand : Nat → ℚ) (q cachedKey : String) (now : Nat)
    (remaining : Nat) :
    ∀ (invocation : Nat) (cache : Cache) (evs : List Event),
      1 ≤ remaining → invocation + remaining = R + 1 →
      (OverpassClient.queryLoop R (fun n => .failure (.axiosError (some (resp n)))) rand q
          cachedKey now remaining invocation cache evs).events.filterMap Event.waitOf
        = evs.filterMap Event.waitOf ++
          (List.range' invocation (remaining - 1)).map
            (fun k => some (rand k * (2 ^ k * 1000))) := by
  induction remaining with
  | zero => intro _ _ _ h; omega
  | succ r ih =>
    intro invocation cache evs _ hinv
    rcases r with _ | r'
    · obtain rfl : invocation = R := by omega
      rw [OverpassClient.queryLoop_succ_eq]
      simp only [OverpassClient.retryDelayFn,
        OverpassClient.retryDecision_exhausted invocation rand q (some (resp invocation))
          invocation (le_refl invocation)]
      simp [Event.waitOf, List.filterMap_append]
    · have hlt : invocation < R := by omega
      rw [OverpassClient.queryLoop_succ_eq]
      simp only [OverpassClient.retryDelayFn,
        OverpassClient.retryDecision_503 R rand q (resp invocation) invocation hlt
          (hst invocation)]
      rw [ih (invocation + 1) (cache.delete cachedKey)
        (evs ++ [Event.invoke invocation,
          Event.waitEv (some (rand invocation * (2 ^ invocation * 1000)))])
        (by omega) (by omega)]
      simp only [Nat.add_sub_cancel, List.filterMap_append]
      rw [List.range'_succ]
      simp [Event.waitOf]

/-! ### Claims -/

set_option linter.unusedVariables false

/-- C5: for every request whose cache key has an unexpired entry in the
cache store, the pipeline returns that cached value and performs no network
call (zero transport invocations, and no query text is sent). -/
theorem claim_C5 (format : String) (timeoutSec maxRetries : Nat)
    (transport : Nat → TransportOutcome) (rand : Nat → ℚ) (etype : ElementType) (id : Nat)
    (outputFormat : String) (cache : Cache) (now : Nat) (v : OverpassResponse)
    (hhit : cache.get now (etype.toStr ++ "-" ++ toString id) = some v) :
    (OverpassClient.getElement format timeoutSec maxRetries transport rand etype id
        outputFormat cache now).result = .success v ∧
    (OverpassClient.getElement format timeoutSec maxRetries transport rand etype id
        outputFormat cache now).invocations = 0 ∧
    (OverpassClient.getElement format timeoutSec maxRetries transport rand etype id
        outputFormat cache now).sentQuery = none := by
  simp [OverpassClient.getElement, hhit, QueryRun.invocations, Event.isInvoke]

theorem claim_C5_witness :
    (Cache.get ⟨[⟨"node-5", ⟨7⟩, 0⟩], 300000⟩ 100 (ElementType.node.toStr ++ "-" ++ toString 5)
        = some ⟨7⟩) ∧
    (OverpassClient.getElement "json" 60 3 (fun _ => .failure .otherError) (fun _ => 0)
        .node 5 "out;" ⟨[⟨"node-5", ⟨7⟩, 0⟩], 300000⟩ 100).result = .success ⟨7⟩ ∧
    (OverpassClient.getElement "json" 60 3 (fun _ => .failure .otherError) (fun _ => 0)
        .node 5 "out;" ⟨[⟨"node-5", ⟨7⟩, 0⟩], 300000⟩ 100).invocations = 0 ∧
    (OverpassClient.getElement "json" 60 3 (fun _ => .failure .otherError) (fun _ => 0)
        .node 5 "out;" ⟨[⟨"node-5", ⟨7⟩, 0⟩], 300000⟩ 100).sentQuery = none := by
  refine ⟨by decide, ?_⟩
  exact claim_C5 "json" 60 3 (fun _ => .failure .otherError) (fun _ => 0) .node 5 "out;"
    ⟨[⟨"node-5", ⟨7⟩, 0⟩], 300000⟩ 100 ⟨7⟩ (by decide)

/-- C6: every successful transport response is written to the cache under
the request cache key before being delivered to the caller: the event trace
ends with the cache write immediately followed by the delivery, and
afterwards the cache serves the payload under that key. -/
theorem claim_C6 (format : String) (timeoutSec maxRetries : Nat)
    (transport : Nat → TransportOutcome) (rand : Nat → ℚ) (q cachedKey : String)
    (cache : Cache) (now : Nat) (v : OverpassResponse)
    (hres : (OverpassClient.query format timeoutSec maxRetries transport rand q cachedKey
        cache now).result = .success v) :
    (∃ pre : List Event,
      (OverpassClient.query format timeoutSec maxRetries transport rand q cachedKey
          cache now).events = pre ++ [Event.cacheSet cachedKey v, Event.deliver v]) ∧
    (OverpassClient.query format timeoutSec maxRetries transport rand q cachedKey
        cache now).cache.get now cachedKey = some v := by
  simp only [OverpassClient.query] at hres ⊢
  rcases OverpassClient.queryLoop_success maxRetries transport rand q cachedKey now
      maxRetries 1 cache [] v hres with ⟨pre, c2, h1, h2, h3⟩
  refine ⟨⟨pre, h1⟩, ?_⟩
  rw [h2]
  exact Cache.get_set_self c2 now now cachedKey v (by omega)

theorem claim_C6_witness :
    ((OverpassClient.query "json" 60 3 (fun _ => .success ⟨7⟩) (fun _ => 0) "body" "k"
        ⟨[], 300000⟩ 0).result = .success ⟨7⟩) ∧
    (∃ pre : List Event,
      (OverpassClient.query "json" 60 3 (fun _ => .success ⟨7⟩) (fun _ => 0) "body" "k"
          ⟨[], 300000⟩ 0).events = pre ++ [Event.cacheSet "k" ⟨7⟩, Event.deliver ⟨7⟩]) ∧
    (OverpassClient.query "json" 60 3 (fun _ => .success ⟨7⟩) (fun _ => 0) "body" "k"
        ⟨[], 300000⟩ 0).cache.get 0 "k" = some ⟨7⟩ := by
  refine ⟨by decide, ?_⟩
  exact claim_C6 "json" 60 3 (fun _ => .success ⟨7⟩) (fun _ => 0) "body" "k"
    ⟨[], 300000⟩ 0 ⟨7⟩ (by decide)

/-- C8: the full outgoing query text is the caller-supplied body wrapped
with the `[out:<format>]` preamble, followed by a `[timeout:<seconds>]`
clause exactly when the configured timeout is nonzero; a zero timeout omits
the clause entirely. -/
theorem claim_C8 (format : String) (timeoutSec maxRetries : Nat)
    (transport : Nat → TransportOutcome) (rand : Nat → ℚ) (q cachedKey : String)
    (cache : Cache) (now : Nat) :
    (timeoutSec ≠ 0 →
      (OverpassClient.query format timeoutSec maxRetries transport rand q cachedKey
          cache now).sentQuery
        = some ("[out:" ++ format ++ "]" ++ ("[timeout:" ++ toString timeoutSec ++ "]")
            ++ ";" ++ q)) ∧
    (timeoutSec = 0 →
      (OverpassClient.query format timeoutSec maxRetries transport rand q cachedKey
          cache now).sentQuery
        = some ("[out:" ++ format ++ "]" ++ ";" ++ q)) := by
  constructor
  · intro h
    simp [OverpassClient.query, fullQueryText, h, String.append_assoc]
  · intro h
    simp [OverpassClient.query, fullQueryText, h]

theorem claim_C8_witness :
    ((60 : Nat) ≠ 0) ∧
    (OverpassClient.query "json" 60 3 (fun _ => .success ⟨7⟩) (fun _ => 0) "body" "k"
        ⟨[], 300000⟩ 0).sentQuery
      = some ("[out:" ++ "json" ++ "]" ++ ("[timeout:" ++ toString (60 : Nat) ++ "]")
          ++ ";" ++ "body") ∧
    (OverpassClient.query "xml" 0 3 (fun _ => .success ⟨7⟩) (fun _ => 0) "body" "k"
        ⟨[], 300000⟩ 0).sentQuery
      = some ("[out:" ++ "xml" ++ "]" ++ ";" ++ "body") := by
  refine ⟨by decide, ?_, ?_⟩
  · exact (claim_C8 "json" 60 3 (fun _ => .success ⟨7⟩) (fun _ => 0) "body" "k"
      ⟨[], 300000⟩ 0).1 (by decide)
  · exact (claim_C8 "xml" 0 3 (fun _ => .success ⟨7⟩) (fun _ => 0) "body" "k"
      ⟨[], 300000⟩ 0).2 rfl

/-- C10: the cache key of `getElement` depends only on the element type and
id, not on the output format: after a first call with format `f1` succeeds
(from a cache miss), a second call with any other format `f2` within the TTL
is served from the cache, with zero transport invocations and no query sent. -/
theorem claim_C10 (format : String) (timeoutSec maxRetries : Nat)
    (tr1 tr2 : Nat → TransportOutcome) (rand1 rand2 : Nat → ℚ)
    (etype : ElementType) (id : Nat) (f1 f2 : String) (cache0 : Cache)
    (now1 now2 : Nat) (v : OverpassResponse)
    (hne : f1 ≠ f2)
    (hmiss : cache0.get now1 (etype.toStr ++ "-" ++ toString id) = none)
    (hrun1 : (OverpassClient.getElement format timeoutSec maxRetries tr1 rand1 etype id f1
        cache0 now1).result = .success v)
    (httl : now2 - now1 ≤ cache0.ttl) :
    (OverpassClient.getElement format timeoutSec maxRetries tr2 rand2 etype id f2
        (OverpassClient.getElement format timeoutSec maxRetries tr1 rand1 etype id f1
          cache0 now1).cache now2).result = .success v ∧
    (OverpassClient.getElement format timeoutSec maxRetries tr2 rand2 etype id f2
        (OverpassClient.getElement format timeoutSec maxRetries tr1 rand1 etype id f1
          cache0 now1).cache now2).invocations = 0 ∧
    (OverpassClient.getElement format timeoutSec maxRetries tr2 rand2 etype id f2
        (OverpassClient.getElement format timeoutSec maxRetries tr1 rand1 etype id f1
          cache0 now1).cache now2).sentQuery = none := by
  simp only [OverpassClient.getElement, hmiss, OverpassClient.query] at hrun1 ⊢
  rcases OverpassClient.queryLoop_success maxRetries tr1 rand1
      (etype.toStr ++ "(" ++ toString id ++ "); " ++ f1)
      (etype.toStr ++ "-" ++ toString id) now1 maxRetries 1 cache0 [] v hrun1
    with ⟨pre, c2, h1, h2, h3⟩
  rw [h2]
  have hget : (c2.set now1 (etype.toStr ++ "-" ++ toString id) v).get now2
      (etype.toStr ++ "-" ++ toString id) = some v :=
    Cache.get_set_self c2 now1 now2 (etype.toStr ++ "-" ++ toString id) v (h3 ▸ httl)
  simp [hget, QueryRun.invocations, Event.isInvoke]

theorem claim_C10_witness :
    (OverpassClient.getElement "json" 60 3 (fun _ => .failure .otherError) (fun _ => 0)
        .node 5 "out center;"
        (OverpassClient.getElement "json" 60 3 (fun _ => .success ⟨7⟩) (fun _ => 0)
          .node 5 "out;" ⟨[], 300000⟩ 0).cache 100).result = .success ⟨7⟩ ∧
    (OverpassClient.getElement "json" 60 3 (fun _ => .failure .otherError) (fun _ => 0)
        .node 5 "out center;"
        (OverpassClient.getElement "json" 60 3 (fun _ => .success ⟨7⟩) (fun _ => 0)
          .node 5 "out;" ⟨[], 300000⟩ 0).cache 100).invocations = 0 ∧
    (OverpassClient.getElement "json" 60 3 (fun _ => .failure .otherError) (fun _ => 0)
        .node 5 "out center;"
        (OverpassClient.getElement "json" 60 3 (fun _ => .success ⟨7⟩) (fun _ => 0)
          .node 5 "out;" ⟨[], 300000⟩ 0).cache 100).sentQuery = none :=
  claim_C10 "json" 60 3 (fun _ => .success ⟨7⟩) (fun _ => .failure .otherError)
    (fun _ => 0) (fun _ => 0) .node 5 "out;" "out center;" ⟨[], 300000⟩ 0 100 ⟨7⟩
    (by decide) (by decide) (by decide) (by decide)

/-- C1 (amended to maxRetries at least 1): with a transport failing with a
retryable status on every attempt, the transport is invoked exactly
`maxRetries` times (so at most `maxRetries + 1`), the final result is the
max-retries-exceeded error, and afterwards the cache holds no entry under
the request cache key. -/
theorem claim_C1_amended (R : Nat) (hR : 1 ≤ R) (resp : Nat → HttpResponse)
    (hst : ∀ n, (resp n).status ∈ retryableStatuses)
    (format : String) (timeoutSec : Nat) (rand : Nat → ℚ) (q cachedKey : String)
    (cache : Cache) (now : Nat) :
    (OverpassClient.query format timeoutSec R
        (fun n => .failure (.axiosError (some (resp n)))) rand q cachedKey
        cache now).invocations = R ∧
    (OverpassClient.query format timeoutSec R
        (fun n => .failure (.axiosError (some (resp n)))) rand q cachedKey
        cache now).result
      = .overpassFailure ⟨"Max retries exceeded. Request failed " ++
          ((resp R).statusText.getD ""), none, some q⟩ ∧
    (OverpassClient.query format timeoutSec R
        (fun n => .failure (.axiosError (some (resp n)))) rand q cachedKey
        cache now).cache.peek cachedKey = none := by
  rcases OverpassClient.queryLoop_all_retryable R resp hst rand q cachedKey now R 1 cache []
      hR (by omega) with ⟨h1, h2, h3⟩
  refine ⟨?_, ?_, ?_⟩ <;>
    simp only [OverpassClient.query, QueryRun.invocations]
  · simpa using h3
  · simpa using h1
  · simpa using h2

theorem claim_C1_witness :
    (OverpassClient.query "json" 60 2
        (fun _ => .failure (.axiosError (some ⟨503, some "Service Unavailable", none, ""⟩)))
        (fun _ => 0) "body" "k" ⟨[], 300000⟩ 0).invocations = 2 ∧
    (OverpassClient.query "json" 60 2
        (fun _ => .failure (.axiosError (some ⟨503, some "Service Unavailable", none, ""⟩)))
        (fun _ => 0) "body" "k" ⟨[], 300000⟩ 0).result
      = .overpassFailure ⟨"Max retries exceeded. Request failed " ++ "Service Unavailable",
          none, some "body"⟩ ∧
    (OverpassClient.query "json" 60 2
        (fun _ => .failure (.axiosError (some ⟨503, some "Service Unavailable", none, ""⟩)))
        (fun _ => 0) "body" "k" ⟨[], 300000⟩ 0).cache.peek "k" = none :=
  claim_C1_amended 2 (by decide)
    (fun _ => ⟨503, some "Service Unavailable", none, ""⟩)
    (fun _ => by simp [retryableStatuses]) "json" 60 (fun _ => 0) "body" "k" ⟨[], 300000⟩ 0

theorem claim_C1_counterexample :
    (OverpassClient.query "json" 60 0
        (fun _ => .failure (.axiosError (some ⟨503, some "Service Unavailable", none, ""⟩)))
        (fun _ => 0) "body" "k" ⟨[], 300000⟩ 0).result
      = .rawFailure (.axiosError (some ⟨503, some "Service Unavailable", none, ""⟩)) ∧
    (OverpassClient.query "json" 60 0
        (fun _ => .failure (.axiosError (some ⟨503, some "Service Unavailable", none, ""⟩)))
        (fun _ => 0) "body" "k" ⟨[], 300000⟩ 0).result
      ≠ .overpassFailure ⟨"Max retries exceeded. Request failed " ++ "Service Unavailable",
          none, some "body"⟩ := by
  decide

/-- C2 (amended): a fatal classification still terminates the request
immediately after its single failing attempt, but for every fatal failure
arriving through the transport (HTTP 400, an unrecognized status, or a
connection-level failure with no response) the cache entry under the request
cache key is deleted before classification; only a non-transport error
leaves the cache untouched.  Stated for a first-attempt failure with retry
budget remaining (2 or more retries configured). -/
theorem claim_C2_amended (R : Nat) (hR : 2 ≤ R) (format : String) (timeoutSec : Nat)
    (transport : Nat → TransportOutcome) (rand : Nat → ℚ) (q cachedKey : String)
    (cache : Cache) (now : Nat) :
    (∀ resp : HttpResponse, transport 1 = .failure (.axiosError (some resp)) →
      resp.status = 400 →
      (OverpassClient.query format timeoutSec R transport rand q cachedKey cache now).result
          = .overpassFailure ⟨"Bad Request Error", some (extract400Details resp.body), some q⟩ ∧
      (OverpassClient.query format timeoutSec R transport rand q cachedKey cache now).cache
          = cache.delete cachedKey ∧
      (OverpassClient.query format timeoutSec R transport rand q cachedKey cache now).invocations
          = 1) ∧
    (∀ resp : HttpResponse, transport 1 = .failure (.axiosError (some resp)) →
      resp.status ∉ (400 :: retryableStatuses) →
      (OverpassClient.query format timeoutSec R transport rand q cachedKey cache now).result
          = .overpassFailure ⟨(if resp.status ≠ 0 then "[" ++ toString resp.status ++ "] - " else "")
              ++ resp.statusText.getD "Unknown error occured", none, none⟩ ∧
      (OverpassClient.query format timeoutSec R transport rand q cachedKey cache now).cache
          = cache.delete cachedKey ∧
      (OverpassClient.query format timeoutSec R transport rand q cachedKey cache now).invocations
          = 1) ∧
    (transport 1 = .failure (.axiosError none) →
      (OverpassClient.query format timeoutSec R transport rand q cachedKey cache now).result
          = .overpassFailure ⟨"Something went wrong", none, some q⟩ ∧
      (OverpassClient.query format timeoutSec R transport rand q cachedKey cache now).cache
          = cache.delete cachedKey ∧
      (OverpassClient.query format timeoutSec R transport rand q cachedKey cache now).invocations
          = 1) ∧
    (transport 1 = .failure .otherError →
      (OverpassClient.query format timeoutSec R transport rand q cachedKey cache now).result
          = .overpassFailure ⟨"Unknown error occurred", none, some q⟩ ∧
      (OverpassClient.query format timeoutSec R transport rand q cachedKey cache now).cache
          = cache ∧
      (OverpassClient.query format timeoutSec R transport rand q cachedKey cache now).invocations
          = 1) := by
  obtain ⟨r, rfl⟩ : ∃ r, R = r + 2 := ⟨R - 2, by omega⟩
  have hnle : ¬ r + 2 ≤ 1 := by omega
  refine ⟨?_, ?_, ?_, ?_⟩
  · intro resp htr h400
    simp only [OverpassClient.query, OverpassClient.queryLoop_succ_eq, htr,
      OverpassClient.retryDelayFn, OverpassClient.retryDecision, hnle, h400,
      QueryRun.invocations]
    simp [Event.isInvoke]
  · intro resp htr hnotin
    simp only [List.mem_cons, retryableStatuses, List.not_mem_nil, or_false,
      not_or] at hnotin
    obtain ⟨h400, h429, h500, h502, h503, h504⟩ := hnotin
    simp only [OverpassClient.query, OverpassClient.queryLoop_succ_eq, htr,
      OverpassClient.retryDelayFn, OverpassClient.retryDecision, hnle, h400, h429,
      h500, h502, h503, h504, QueryRun.invocations]
    simp [Event.isInvoke]
  · intro htr
    simp only [OverpassClient.query, OverpassClient.queryLoop_succ_eq, htr,
      OverpassClient.retryDelayFn, OverpassClient.retryDecision, hnle,
      QueryRun.invocations]
    simp [Event.isInvoke]
  · intro htr
    simp only [OverpassClient.query, OverpassClient.queryLoop_succ_eq, htr,
      OverpassClient.retryDelayFn, QueryRun.invocations]
    simp [Event.isInvoke]

theorem claim_C2_witness :
    (OverpassClient.query "json" 60 2
        (fun _ => .failure (.axiosError (some ⟨400, some "Bad Request", none, ""⟩)))
        (fun _ => 0) "body" "k" ⟨[⟨"k", ⟨7⟩, 0⟩], 300000⟩ 0).result
      = .overpassFailure ⟨"Bad Request Error", some (extract400Details ""), some "body"⟩ ∧
    (OverpassClient.query "json" 60 2
        (fun _ => .failure (.axiosError (some ⟨400, some "Bad Request", none, ""⟩)))
        (fun _ => 0) "body" "k" ⟨[⟨"k", ⟨7⟩, 0⟩], 300000⟩ 0).cache
      = Cache.delete ⟨[⟨"k", ⟨7⟩, 0⟩], 300000⟩ "k" ∧
    (OverpassClient.query "json" 60 2
        (fun _ => .failure (.axiosError (some ⟨400, some "Bad Request", none, ""⟩)))
        (fun _ => 0) "body" "k" ⟨[⟨"k", ⟨7⟩, 0⟩], 300000⟩ 0).invocations = 1 :=
  (claim_C2_amended 2 (by decide) "json" 60
    (fun _ => .failure (.axiosError (some ⟨400, some "Bad Request", none, ""⟩)))
    (fun _ => 0) "body" "k" ⟨[⟨"k", ⟨7⟩, 0⟩], 300000⟩ 0).1
    ⟨400, some "Bad Request", none, ""⟩ rfl rfl

theorem claim_C2_counterexample :
    (Cache.peek ⟨[⟨"k", ⟨7⟩, 0⟩], 300000⟩ "k" = some ⟨7⟩) ∧
    (OverpassClient.query "json" 60 2
        (fun _ => .failure (.axiosError (some ⟨400, some "Bad Request", none, ""⟩)))
        (fun _ => 0) "body" "k" ⟨[⟨"k", ⟨7⟩, 0⟩], 300000⟩ 0).cache.peek "k" = none := by
  decide

/-- C7 (amended): an attempt answered with HTTP 400 never schedules a retry
(the run has exactly one invocation and no waits, whatever the budget), and
the surfaced error depends on the remaining budget: the bad-request error
when at least one retry remains unconsumed (maxRetries at least 2 for a
first-attempt 400), the max-retries-exceeded error when the 400 arrives on
the exhausting attempt (maxRetries = 1), and the raw transport error when
maxRetries = 0. -/
theorem claim_C7_amended (R : Nat) (format : String) (timeoutSec : Nat)
    (transport : Nat → TransportOutcome) (rand : Nat → ℚ) (resp : HttpResponse)
    (q cachedKey : String) (cache : Cache) (now : Nat)
    (htr : transport 1 = .failure (.axiosError (some resp))) (hst : resp.status = 400) :
    ((OverpassClient.query format timeoutSec R transport rand q cachedKey cache now).invocations
        = 1 ∧
      (OverpassClient.query format timeoutSec R transport rand q cachedKey cache now).waits
        = []) ∧
    (2 ≤ R →
      (OverpassClient.query format timeoutSec R transport rand q cachedKey cache now).result
        = .overpassFailure ⟨"Bad Request Error", some (extract400Details resp.body), some q⟩) ∧
    (R = 1 →
      (OverpassClient.query format timeoutSec R transport rand q cachedKey cache now).result
        = .overpassFailure ⟨"Max retries exceeded. Request failed " ++ resp.statusText.getD "",
            none, some q⟩) ∧
    (R = 0 →
      (OverpassClient.query format timeoutSec R transport rand q cachedKey cache now).result
        = .rawFailure (.axiosError (some resp))) := by
  rcases R with _ | R'
  · simp only [OverpassClient.query, OverpassClient.queryLoop_zero_eq, htr,
      QueryRun.invocations, QueryRun.waits]
    refine ⟨⟨by simp [Event.isInvoke], by simp [Event.waitOf]⟩, by omega, by omega, fun _ => by simp⟩
  · rcases R' with _ | r
    · simp only [OverpassClient.query, OverpassClient.queryLoop_succ_eq, htr,
        OverpassClient.retryDelayFn,
        OverpassClient.retryDecision_exhausted 1 rand q (some resp) 1 (le_refl 1),
        QueryRun.invocations, QueryRun.waits]
      refine ⟨⟨by simp [Event.isInvoke], by simp [Event.waitOf]⟩, by omega, fun _ => by simp,
        by omega⟩
    · have hnle : ¬ r + 2 ≤ 1 := by omega
      simp only [OverpassClient.query, OverpassClient.queryLoop_succ_eq, htr,
        OverpassClient.retryDelayFn, OverpassClient.retryDecision, hnle, hst,
        QueryRun.invocations, QueryRun.waits]
      refine ⟨⟨by simp [Event.isInvoke], by simp [Event.waitOf]⟩, fun _ => by simp,
        by omega, by omega⟩

theorem claim_C7_witness :
    ((OverpassClient.query "json" 60 3
        (fun _ => .failure (.axiosError (some ⟨400, some "Bad Request", none, ""⟩)))
        (fun _ => 0) "body" "k" ⟨[], 300000⟩ 0).invocations = 1 ∧
      (OverpassClient.query "json" 60 3
        (fun _ => .failure (.axiosError (some ⟨400, some "Bad Request", none, ""⟩)))
        (fun _ => 0) "body" "k" ⟨[], 300000⟩ 0).waits = []) ∧
    (OverpassClient.query "json" 60 3
        (fun _ => .failure (.axiosError (some ⟨400, some "Bad Request", none, ""⟩)))
        (fun _ => 0) "body" "k" ⟨[], 300000⟩ 0).result
      = .overpassFailure ⟨"Bad Request Error", some (extract400Details ""), some "body"⟩ :=
  ⟨(claim_C7_amended 3 "json" 60
      (fun _ => .failure (.axiosError (some ⟨400, some "Bad Request", none, ""⟩)))
      (fun _ => 0) ⟨400, some "Bad Request", none, ""⟩ "body" "k" ⟨[], 300000⟩ 0 rfl rfl).1,
    (claim_C7_amended 3 "json" 60
      (fun _ => .failure (.axiosError (some ⟨400, some "Bad Request", none, ""⟩)))
      (fun _ => 0) ⟨400, some "Bad Request", none, ""⟩ "body" "k" ⟨[], 300000⟩ 0 rfl rfl).2.1
      (by decide)⟩

theorem claim_C7_counterexample :
    (OverpassClient.query "json" 60 1
        (fun _ => .failure (.axiosError (some ⟨400, some "Bad Request", none, ""⟩)))
        (fun _ => 0) "body" "k" ⟨[], 300000⟩ 0).result
      = .overpassFailure ⟨"Max retries exceeded. Request failed " ++ "Bad Request",
          none, some "body"⟩ ∧
    (OverpassError.mk ("Max retries exceeded. Request failed " ++ "Bad Request") none
        (some "body")).message ≠ "Bad Request Error" := by
  decide

/-- C3 (amended): the retry count the backoff sees is 1-based (the RxJS
retry count), so the scheduled wait before the k-th retry, k = 1, 2, ...,
is `rand k * (2 ^ k * 1000)` and lies in `[0, 2 ^ k * 1000)` milliseconds:
before the first retry in `[0, 2000)`, before the second in `[0, 4000)`,
and so on — not `[0, 2 ^ (k-1) * 1000)` as a 0-indexed attempt would give. -/
theorem claim_C3_amended (R : Nat) (hR : 1 ≤ R) (resp : Nat → HttpResponse)
    (hst : ∀ n, (resp n).status = 503) (format : String) (timeoutSec : Nat)
    (rand : Nat → ℚ) (q cachedKey : String) (cache : Cache) (now : Nat)
    (hrand : ∀ n, 0 ≤ rand n ∧ rand n < 1) :
    (OverpassClient.query format timeoutSec R
        (fun n => .failure (.axiosError (some (resp n)))) rand q cachedKey cache now).waits
      = (List.range' 1 (R - 1)).map (fun k => some (rand k * (2 ^ k * 1000))) ∧
    (∀ k : Nat, 0 ≤ rand k * (2 ^ k * 1000) ∧ rand k * (2 ^ k * 1000) < 2 ^ k * 1000) := by
  constructor
  · have h := OverpassClient.queryLoop_waits_all503 R resp hst rand q cachedKey now R 1
      cache [] hR (by omega)
    simp only [OverpassClient.query, QueryRun.waits]
    simpa using h
  · intro k
    have hpos : (0 : ℚ) < 2 ^ k * 1000 := by positivity
    constructor
    · exact mul_nonneg (hrand k).1 (le_of_lt hpos)
    · have h1 : rand k * (2 ^ k * 1000) < 1 * (2 ^ k * 1000) :=
        mul_lt_mul_of_pos_right (hrand k).2 hpos
      simpa using h1

theorem claim_C3_witness :
    (OverpassClient.query "json" 60 3
        (fun _ => .failure (.axiosError (some ⟨503, some "Service Unavailable", none, ""⟩)))
        (fun _ => 1/2) "body" "k" ⟨[], 300000⟩ 0).waits
      = [some ((1/2 : ℚ) * (2 ^ 1 * 1000)), some ((1/2 : ℚ) * (2 ^ 2 * 1000))] := by
  have h := (claim_C3_amended 3 (by decide)
    (fun _ => ⟨503, some "Service Unavailable", none, ""⟩) (fun _ => rfl) "json" 60
    (fun _ => 1/2) "body" "k" ⟨[], 300000⟩ 0 (fun _ => by norm_num)).1
  simpa [List.range'] using h

theorem claim_C3_counterexample :
    (0 ≤ (3/4 : ℚ) ∧ (3/4 : ℚ) < 1) ∧
    (OverpassClient.query "json" 60 2
        (fun _ => .failure (.axiosError (some ⟨503, some "Service Unavailable", none, ""⟩)))
        (fun _ => 3/4) "body" "k" ⟨[], 300000⟩ 0).waits
      = [some ((3/4 : ℚ) * (2 ^ 1 * 1000))] ∧
    ((3/4 : ℚ) * (2 ^ 1 * 1000) = 1500) ∧ ¬ ((1500 : ℚ) < 1000) := by
  refine ⟨by norm_num, ?_, by norm_num, by norm_num⟩
  have h := OverpassClient.queryLoop_waits_all503 2
    (fun _ => ⟨503, some "Service Unavailable", none, ""⟩) (fun _ => rfl) (fun _ => 3/4)
    "body" "k" 0 2 1 ⟨[], 300000⟩ [] (by omega) (by omega)
  simp only [OverpassClient.query, QueryRun.waits]
  simpa [List.range'] using h

/-- C4 (amended): for a 429 failure on a non-exhausting attempt, the wait is
the parsed `retry-after` header times 1000 ms whenever the header is present,
nonempty and parses to an integer (bypassing the backoff formula); the
full-jitter backoff is used only when the header is absent (or empty, a
falsy string); a present but unparseable header yields a `NaN` wait (the
timer fires immediately), not the backoff formula. -/
theorem claim_C4_amended (R : Nat) (rand : Nat → ℚ) (q : String) (resp : HttpResponse)
    (attempt : Nat) (hd : String) (n : Int)
    (hlt : attempt < R) (h429 : resp.status = 429) :
    (resp.retryAfter = some hd → hd ≠ "" → parseIntJS hd = some n →
      OverpassClient.retryDecision R rand q (some resp) attempt
        = .waitMs (some ((n : ℚ) * 1000))) ∧
    (resp.retryAfter = none →
      OverpassClient.retryDecision R rand q (some resp) attempt
        = .waitMs (some (rand attempt * (2 ^ attempt * 1000)))) ∧
    (resp.retryAfter = some hd → hd ≠ "" → parseIntJS hd = none →
      OverpassClient.retryDecision R rand q (some resp) attempt = .waitMs none) := by
  have hnle : ¬ R ≤ attempt := by omega
  refine ⟨?_, ?_, ?_⟩
  · intro hh hne hparse
    simp [OverpassClient.retryDecision, hnle, h429, hh, hne, hparse,
      OverpassClient.retryAfter]
  · intro hh
    simp [OverpassClient.retryDecision, hnle, h429, hh, OverpassClient.retryAfter]
  · intro hh hne hparse
    simp [OverpassClient.retryDecision, hnle, h429, hh, hne, hparse,
      OverpassClient.retryAfter]

theorem claim_C4_witness :
    (OverpassClient.retryDecision 3 (fun _ => 0) "body"
        (some ⟨429, some "Too Many Requests", some "1", ""⟩) 1
      = .waitMs (some (((1 : Int) : ℚ) * 1000))) ∧
    (OverpassClient.retryDecision 3 (fun _ => 0) "body"
        (some ⟨429, some "Too Many Requests", none, ""⟩) 1
      = .waitMs (some ((fun _ => (0 : ℚ)) 1 * (2 ^ 1 * 1000)))) ∧
    (OverpassClient.retryDecision 3 (fun _ => 0) "body"
        (some ⟨429, some "Too Many Requests", some "abc", ""⟩) 1 = .waitMs none) :=
  ⟨(claim_C4_amended 3 (fun _ => 0) "body" ⟨429, some "Too Many Requests", some "1", ""⟩
      1 "1" 1 (by decide) rfl).1 rfl (by decide) (by decide),
    (claim_C4_amended 3 (fun _ => 0) "body" ⟨429, some "Too Many Requests", none, ""⟩
      1 "" 0 (by decide) rfl).2.1 rfl,
    (claim_C4_amended 3 (fun _ => 0) "body" ⟨429, some "Too Many Requests", some "abc", ""⟩
      1 "abc" 0 (by decide) rfl).2.2 rfl (by decide) (by decide)⟩

theorem claim_C4_counterexample :
    (OverpassClient.query "json" 60 2
        (fun n => if n = 1
          then .failure (.axiosError (some ⟨429, some "Too Many Requests", some "abc", ""⟩))
          else .success ⟨7⟩)
        (fun _ => 1/2) "body" "k" ⟨[], 300000⟩ 0).waits = [none] ∧
    (none : JSNum) ≠ some ((1/2 : ℚ) * (2 ^ 1 * 1000)) := by
  decide

/-- C9: a 400 response surfaces the bad-request error whose details are
exactly the extraction over the response body (all captures of the error
marker regex, `&quot;` decoded to a double quote in each); a body with no
match yields an empty details sequence, and then the full error message has
no details section.  The concrete conjuncts exercise one embedded marker
with quote entities and a body with no marker.  Stated for a first-attempt
400 with retry budget remaining. -/
theorem claim_C9 (R : Nat) (hR : 2 ≤ R) (format : String) (timeoutSec : Nat)
    (transport : Nat → TransportOutcome) (rand : Nat → ℚ) (q cachedKey : String)
    (cache : Cache) (now : Nat) (resp : HttpResponse)
    (htr : transport 1 = .failure (.axiosError (some resp))) (hst : resp.status = 400) :
    (OverpassClient.query format timeoutSec R transport rand q cachedKey cache now).result
      = .overpassFailure ⟨"Bad Request Error", some (extract400Details resp.body), some q⟩ ∧
    (extract400Details resp.body = [] →
      OverpassError.fullMessage
          ⟨"Bad Request Error", some (extract400Details resp.body), some q⟩
        = "Overpass Error: " ++ (if q = "" then "" else q ++ " ") ++ "Bad Request Error") ∧
    extract400Details "<p><strong>Error</strong>: expected &quot;tag&quot; </p>"
      = ["expected \"tag\""] ∧
    extract400Details "runtime error without any marker" = [] := by
  obtain ⟨r, rfl⟩ : ∃ r, R = r + 2 := ⟨R - 2, by omega⟩
  have hnle : ¬ r + 2 ≤ 1 := by omega
  refine ⟨?_, ?_, by decide, by decide⟩
  · simp only [OverpassClient.query, OverpassClient.queryLoop_succ_eq, htr,
      OverpassClient.retryDelayFn, OverpassClient.retryDecision, hnle, hst]
    simp
  · intro h
    simp [OverpassError.fullMessage, h]

theorem claim_C9_witness :
    ((2 : Nat) ≤ 2) ∧
    (OverpassClient.query "json" 60 2
        (fun _ => .failure (.axiosError
          (some ⟨400, some "Bad Request", none,
            "<p><strong>Error</strong>: expected &quot;tag&quot; </p>"⟩)))
        (fun _ => 0) "body" "k" ⟨[], 300000⟩ 0).result
      = .overpassFailure ⟨"Bad Request Error",
          some (extract400Details "<p><strong>Error</strong>: expected &quot;tag&quot; </p>"),
          some "body"⟩ ∧
    extract400Details "<p><strong>Error</strong>: expected &quot;tag&quot; </p>"
      = ["expected \"tag\""] :=
  ⟨by decide,
    (claim_C9 2 (by decide) "json" 60
      (fun _ => .failure (.axiosError
        (some ⟨400, some "Bad Request", none,
          "<p><strong>Error</strong>: expected &quot;tag&quot; </p>"⟩)))
      (fun _ => 0) "body" "k" ⟨[], 300000⟩ 0
      ⟨400, some "Bad Request", none,
        "<p><strong>Error</strong>: expected &quot;tag&quot; </p>"⟩ rfl rfl).1,
    (claim_C9 2 (by decide) "json" 60
      (fun _ => .failure (.axiosError
        (some ⟨400, some "Bad Request", none,
          "<p><strong>Error</strong>: expected &quot;tag&quot; </p>"⟩)))
      (fun _ => 0) "body" "k" ⟨[], 300000⟩ 0
      ⟨400, some "Bad Request", none,
        "<p><strong>Error</strong>: expected &quot;tag&quot; </p>"⟩ rfl rfl).2.2.1⟩
